import Mathlib

/-!
# Verification of the gemini-voice-input client/server pair

Shallow embedding of the two source files of the repository:

* `src/index.tsx` — the Bun server exposing `POST /api/transcribe`
  (the "Transcription Gateway"): credential resolution, missing-audio
  validation, payload construction (base64-inlined audio plus a fixed
  prompt), and the error-to-JSON mapping.
* `src/App.tsx` — the React client (the "Recording Session Controller"
  and "Transcript Accumulator"): the toggle-based microphone capture
  lifecycle (`handleToggleListen`, the `ondataavailable` / `onstop`
  handlers) and the transcription-response handling
  (`sendAudioForTranscription`).

External collaborators (the browser media APIs, `fetch`, and the
generative-AI SDK) are modelled as oracles passed in as function
arguments; their observable interactions are recorded as explicit
effects so that claims about device acquisition/release and external
calls can be stated.
-/

namespace GeminiVoice

/-! ## JavaScript value model

The client parses the HTTP response with `response.json()`; the
`transcription` field of the resulting object is an arbitrary JSON
value whose JavaScript truthiness and string coercion matter for the
accumulation logic (`result.transcription || ""`). -/

/-- A JSON field value as seen by the JavaScript client. `undef` stands
for an absent field (reading it yields `undefined`). Composite values
(arrays/objects) do not occur in the responses of this server and are
not modelled. -/
inductive JsonValue where
  | undef : JsonValue
  | null : JsonValue
  | bool (b : Bool) : JsonValue
  | num (n : Int) : JsonValue
  | str (s : String) : JsonValue
deriving DecidableEq

/-- JavaScript truthiness of a `JsonValue` (`undefined`, `null`,
`false`, `0` and `""` are falsy). -/
def JsonValue.truthy : JsonValue → Bool
  | .undef => false
  | .null => false
  | .bool b => b
  | .num n => n != 0
  | .str s => s != ""

/-- JavaScript string coercion as performed by a template literal. -/
def JsonValue.toDisplayString : JsonValue → String
  | .undef => "undefined"
  | .null => "null"
  | .bool b => if b then "true" else "false"
  | .num n => toString n
  | .str s => s

/-- The JavaScript expression `a || b` for an optional string `a`
(absent and `""` are falsy and fall through to `b`). -/
def jsOrStr (a : Option String) (b : String) : String :=
  match a with
  | some s => if s != "" then s else b
  | none => b

/-! ## Server: `src/index.tsx`, `POST /api/transcribe` -/

/-- The parsed multipart form body of a `POST /api/transcribe` request:
`formData.get("audio_file")` (a `File`, modelled by its byte content)
and `formData.get("gemini_api_token")` (a string), each `null` when the
field is absent. -/
structure Request where
  audioFile : Option (List Nat)
  clientToken : Option String
deriving DecidableEq

/-- The JSON body of a gateway response. The source produces exactly
three shapes: `{transcription}`, `{error}` and `{error, details}`;
absent fields are `none`. -/
structure RespBody where
  transcription : Option String
  error : Option String
  details : Option String
deriving DecidableEq

/-- The observable outcome of one invocation of the request handler:
either a JSON response with an HTTP status, or an exception that
propagates out of the handler (no `Response` is produced). -/
inductive Outcome where
  | json (status : Nat) (body : RespBody)
  | thrown (msg : String)
deriving DecidableEq

/-- HTTP status of an outcome, `none` when the handler threw. -/
def Outcome.statusOf : Outcome → Option Nat
  | .json s _ => some s
  | .thrown _ => none

/-- Server-global state built at process start:
`genAI = GEMINI_API_KEY ? new GoogleGenerativeAI(GEMINI_API_KEY) : null`
and `model = genAI ? genAI.getGenerativeModel(...) : null`. Both are
tagged by the credential they are scoped to. -/
structure ServerState where
  genAI : Option String
  model : Option String
deriving DecidableEq

/-- Process-start initialization from the `GEMINI_API_KEY` environment
variable (`none` = unset; the empty string is falsy in JavaScript, so
it also yields no default client). -/
def initServer (envKey : Option String) : ServerState :=
  match envKey with
  | some k => if k != "" then ⟨some k, some k⟩ else ⟨none, none⟩
  | none => ⟨none, none⟩

/-- The transcription client selected for one request, tagged by the
credential it is scoped to: `fresh` = constructed from the
caller-supplied token for this single request, `server` = the
process-wide default. -/
inductive ClientId where
  | fresh (key : String)
  | server (key : String)
deriving DecidableEq

/-- One call to the external generative API
(`currentModel.generateContent(...)`): the client it is issued on, the
fixed instruction prompt, and the inline audio part. -/
structure GenCall where
  client : ClientId
  prompt : String
  audioBase64 : String
  mimeType : String
deriving DecidableEq

/-- The base64 alphabet (`Buffer.toString("base64")`). -/
def base64Alphabet : List Char :=
  "ABCDEFGHIJKLMNOPQRSTUVWXYZabcdefghijklmnopqrstuvwxyz0123456789+/".toList

/-- Character for one 6-bit group. -/
def b64Char (n : Nat) : Char := base64Alphabet.getD n 'A'

/-- Standard base64 with padding, as produced by
`Buffer.from(bytes).toString("base64")`. Bytes are taken modulo 256. -/
def base64Encode : List Nat → String
  | [] => ""
  | [a] =>
    let a := a % 256
    String.mk [b64Char (a / 4), b64Char (a % 4 * 16)] ++ "=="
  | [a, b] =>
    let a := a % 256
    let b := b % 256
    String.mk [b64Char (a / 4), b64Char (a % 4 * 16 + b / 16), b64Char (b % 16 * 4)] ++ "="
  | a :: b :: c :: rest =>
    let a := a % 256
    let b := b % 256
    let c := c % 256
    String.mk [b64Char (a / 4), b64Char (a % 4 * 16 + b / 16),
      b64Char (b % 16 * 4 + c / 64), b64Char (c % 64)] ++ base64Encode rest

/-- JavaScript `String.prototype.trim()`: strip leading and trailing
whitespace (modelled on the character list so that it computes by
structural recursion). -/
def jsTrim (s : String) : String :=
  String.mk (((s.toList.dropWhile Char.isWhitespace).reverse.dropWhile
    Char.isWhitespace).reverse)

/-- JavaScript truthiness of `clientToken` combined with
`clientToken.trim() !== ""`: the guard
`if (clientToken && clientToken.trim() !== "")` of the handler. -/
def nonBlank : Option String → Bool
  | none => false
  | some t => t != "" && jsTrim t != ""

/-- The `else if (genAI && model)` / final `else` branches of the
credential resolution: use the server default when it was initialized
at process start, otherwise answer 500 with a configuration error. -/
def serverFallback (st : ServerState) : Except Outcome ClientId :=
  match st.genAI, st.model with
  | some k, some _ => Except.ok (ClientId.server k)
  | _, _ => Except.error (Outcome.json 500
      ⟨none, some "API token is required. Configure it on the server or provide it in the request.", none⟩)

/-- Credential resolution of the handler (lines 47–65 of
`src/index.tsx`): a non-blank caller token leads to construction of a
fresh client (a construction failure answers 400 with details);
otherwise fall back to the server default. `mkClient` is the oracle for
`new GoogleGenerativeAI(clientToken)`. -/
def resolveCredential (st : ServerState) (clientToken : Option String)
    (mkClient : String → Except String Unit) : Except Outcome ClientId :=
  match clientToken with
  | some t =>
    if t != "" && jsTrim t != "" then
      match mkClient t with
      | Except.ok _ => Except.ok (ClientId.fresh t)
      | Except.error e => Except.error (Outcome.json 400
          ⟨none, some "Invalid client-provided API token.", some e⟩)
    else serverFallback st
  | none => serverFallback st

/-- The fixed instruction prompt of every transcription request. -/
def transcribePrompt : String := "Please transcribe the following audio:"

/-- The external call built from the selected client and the audio
bytes: a text part with the fixed prompt and an inline-data part with
the base64-encoded audio tagged `audio/webm`. -/
def mkGenCall (cid : ClientId) (bytes : List Nat) : GenCall :=
  ⟨cid, transcribePrompt, base64Encode bytes, "audio/webm"⟩

/-- The `POST /api/transcribe` handler (lines 39–107 of
`src/index.tsx`). `parseResult` is the outcome of
`await req.formData()` — it is evaluated before any try/catch, so its
exception propagates out of the handler. `callApi` is the oracle for
`currentModel.generateContent(...)` followed by `response.text()`; its
error is caught by the handler's try/catch. The second component lists
the external calls actually issued. -/
def postTranscribe (st : ServerState) (parseResult : Except String Request)
    (mkClient : String → Except String Unit)
    (callApi : GenCall → Except String String) : Outcome × List GenCall :=
  match parseResult with
  | Except.error e => (Outcome.thrown e, [])
  | Except.ok req =>
    match resolveCredential st req.clientToken mkClient with
    | Except.error resp => (resp, [])
    | Except.ok cid =>
      match req.audioFile with
      | none => (Outcome.json 400 ⟨none, some "No audio file provided.", none⟩, [])
      | some bytes =>
        let call := mkGenCall cid bytes
        match callApi call with
        | Except.ok text => (Outcome.json 200 ⟨some text, none, none⟩, [call])
        | Except.error e =>
          (Outcome.json 500 ⟨none, some "Failed to transcribe audio.", some e⟩, [call])

/-! ## Client: `src/App.tsx` -/

/-- `MediaRecorder.state` (only the values this client can observe). -/
inductive RecState where
  | inactive : RecState
  | recording : RecState
deriving DecidableEq

/-- The `MediaRecorder` held in `mediaRecorderRef`, together with the
microphone stream it was constructed on (identified by a device id so
that acquisition/release can be counted). -/
structure Recorder where
  recState : RecState
  streamId : Nat
deriving DecidableEq

/-- The React state and refs of the `App` component that the recording
and transcript logic reads and writes. -/
structure ClientState where
  isListening : Bool
  geminiApiToken : String
  transcribedText : String
  statusText : String
  errorText : String
  mediaRecorder : Option Recorder
  audioChunks : List (List Nat)
deriving DecidableEq

/-- The initial `useState` / `useRef` values of the component. -/
def clientInit : ClientState :=
  ⟨false, "", "", "Click the button to start voice input.", "", none, []⟩

/-- Observable side effects of the client on its environment:
microphone acquisition (`getUserMedia` resolving), stream release
(`track.stop()` on the acquired stream), and dispatch of the
transcription request (`fetch("/api/transcribe", ...)` with the
assembled audio bytes and the optional token field of the form data). -/
inductive Effect where
  | acquireDevice (streamId : Nat)
  | releaseStream (streamId : Nat)
  | sendTranscription (audioBytes : List Nat) (token : Option String)
deriving DecidableEq

/-- The `ondataavailable` handler (lines 81–85 of `src/App.tsx`): a
fragment is buffered only when `event.data.size > 0`. -/
def onDataAvailable (s : ClientState) (chunk : List Nat) : ClientState :=
  if chunk.length > 0 then { s with audioChunks := s.audioChunks ++ [chunk] } else s

/-- `new Blob(audioChunksRef.current, ...)`: concatenation of the
buffered fragments in arrival order. -/
def assembleArtifact (chunks : List (List Nat)) : List Nat := chunks.flatten

/-- The `onstop` handler (lines 87–95 of `src/App.tsx`) together with
the synchronous prefix of `sendAudioForTranscription` (lines 18–34): the
buffered fragments are assembled into one artifact, status/error text
is updated, the request is dispatched (the form carries the token field
only when `geminiApiToken` is truthy), and finally every track of the
stream is stopped, releasing the device. -/
def fireOnStop (s : ClientState) (streamId : Nat) : ClientState × List Effect :=
  let audioBytes := assembleArtifact s.audioChunks
  let tok := if s.geminiApiToken != "" then some s.geminiApiToken else none
  ({ s with statusText := "Transcribing audio...", errorText := "" },
   [Effect.sendTranscription audioBytes tok, Effect.releaseStream streamId])

/-- The `handleToggleListen` handler (lines 64–109 of `src/App.tsx`).
`micResult` is the oracle for `navigator.mediaDevices.getUserMedia`:
on success it yields the id of the freshly acquired stream, on failure
the error message. While listening, the toggle stops the recorder
(which fires `onstop`, modelled here as running synchronously after
`setIsListening(false)` since it fires exactly once) and never touches
the microphone; while idle, it acquires the microphone, constructs a
fresh recorder, clears the fragment buffer and starts recording, or on
device failure surfaces the microphone error and stays idle. -/
def handleToggleListen (s : ClientState) (micResult : Except String Nat) :
    ClientState × List Effect :=
  let s0 := { s with errorText := "" }
  if s0.isListening then
    match s0.mediaRecorder with
    | some r =>
      if r.recState = RecState.recording then
        let s1 := { s0 with
          mediaRecorder := some ⟨RecState.inactive, r.streamId⟩,
          isListening := false }
        fireOnStop s1 r.streamId
      else ({ s0 with isListening := false }, [])
    | none => ({ s0 with isListening := false }, [])
  else
    match micResult with
    | Except.ok sid =>
      ({ s0 with
          mediaRecorder := some ⟨RecState.recording, sid⟩,
          audioChunks := [],
          isListening := true,
          statusText := "Listening... Click to stop." },
       [Effect.acquireDevice sid])
    | Except.error msg =>
      ({ s0 with
          errorText := "Error accessing microphone: " ++ msg
            ++ ". Please ensure permission is granted.",
          statusText := "Could not start listening. Check microphone permissions.",
          isListening := false }, [])

/-- Deliver a sequence of fragments to the `ondataavailable` handler in
arrival order. -/
def deliverAll (s : ClientState) (frags : List (List Nat)) : ClientState :=
  frags.foldl onDataAvailable s

/-- The JSON body of a `/api/transcribe` response as the client reads
it: `result.transcription` is kept as a raw JSON value (its truthiness
drives the accumulation), `result.error` / `result.details` as optional
strings. -/
structure ClientRespBody where
  transcription : JsonValue
  error : Option String
  details : Option String
deriving DecidableEq

/-- Outcome of `await fetch(...)` followed by `await response.json()`:
a parsed response with its `response.ok` flag, or a rejection (network
or parse failure) carrying the message the catch block extracts. -/
inductive FetchOutcome where
  | response (ok : Bool) (body : ClientRespBody)
  | failed (msg : String)
deriving DecidableEq

/-- Status line after a successful transcription call. -/
def completeStatus : String := "Transcription complete. Click to start again."

/-- Status line after a failed transcription call. -/
def transcriptionErrorStatus : String := "Error during transcription. Please try again."

/-- `prevText ? prevText + "\n" + newEntry : newEntry` (lines 46–50 of
`src/App.tsx`). -/
def appendEntry (prev newEntry : String) : String :=
  if prev != "" then prev ++ "\n" ++ newEntry else newEntry

/-- The continuation of `sendAudioForTranscription` after the response
arrives (lines 36–61 of `src/App.tsx`): a non-ok response throws the
extracted message into the catch block; an ok response coerces
`result.transcription || ""` and appends a timestamped entry exactly
when the result is truthy; the catch block records the error text and
the error status. `timestamp` is `new Date().toLocaleTimeString()`
taken at receipt. -/
def finishSend (s : ClientState) (timestamp : String) (out : FetchOutcome) : ClientState :=
  match out with
  | FetchOutcome.failed msg =>
    { s with
        errorText := "Error: " ++ msg,
        statusText := transcriptionErrorStatus }
  | FetchOutcome.response ok body =>
    if ok then
      let newTranscription :=
        if body.transcription.truthy then body.transcription else JsonValue.str ""
      if newTranscription.truthy then
        let newEntry := "[" ++ timestamp ++ "] " ++ newTranscription.toDisplayString
        { s with
            transcribedText := appendEntry s.transcribedText newEntry,
            statusText := completeStatus }
      else
        { s with statusText := completeStatus }
    else
      let message := jsOrStr body.error (jsOrStr body.details "Transcription failed")
      { s with
          errorText := "Error: " ++ message,
          statusText := transcriptionErrorStatus }

/-! ## Abstract transcript log

The spec's `TranscriptLog` is an ordered sequence of `TranscriptEntry`
(timestamp, text), rendered by the client into the single
`transcribedText` string, one entry per line, newest last. -/

/-- Rendering of one `TranscriptEntry` (timestamp, text). -/
def renderEntry (e : String × String) : String := "[" ++ e.1 ++ "] " ++ e.2

/-- Rendering of a `TranscriptLog` into the `transcribedText` string by
successive appends, the empty log rendering to `""`. -/
def renderLog (log : List (String × String)) : String :=
  log.foldl (fun acc e => appendEntry acc (renderEntry e)) ""

/-! ## Helper lemmas -/

/-- Effect classifier: is this a device acquisition? -/
def Effect.isAcquire : Effect → Bool
  | .acquireDevice _ => true
  | _ => false

/-- Effect classifier: is this a release of stream `sid`? -/
def Effect.isReleaseOf (sid : Nat) : Effect → Bool
  | .releaseStream j => j == sid
  | _ => false

/-- Number of releases of stream `sid` among a list of effects. -/
def countRelease (sid : Nat) (effs : List Effect) : Nat :=
  effs.countP (Effect.isReleaseOf sid)

theorem renderLog_append (log : List (String × String)) (x : String × String) :
    renderLog (log ++ [x]) = appendEntry (renderLog log) (renderEntry x) := by
  simp [renderLog, List.foldl_append]

theorem append_error_ne_empty (m : String) : "Error: " ++ m ≠ "" := by
  intro h
  have h2 := congrArg String.length h
  simp [String.length_append] at h2
  exact absurd h2.1 (by decide)

theorem onDataAvailable_audioChunks (s : ClientState) (c : List Nat) :
    (onDataAvailable s c).audioChunks
      = s.audioChunks ++ (if c.length > 0 then [c] else []) := by
  unfold onDataAvailable
  split <;> simp

theorem onDataAvailable_persistent (s : ClientState) (c : List Nat) :
    (onDataAvailable s c).isListening = s.isListening
  ∧ (onDataAvailable s c).mediaRecorder = s.mediaRecorder
  ∧ (onDataAvailable s c).geminiApiToken = s.geminiApiToken
  ∧ (onDataAvailable s c).transcribedText = s.transcribedText := by
  unfold onDataAvailable
  split <;> simp

theorem deliverAll_audioChunks (frags : List (List Nat)) : ∀ s : ClientState,
    (deliverAll s frags).audioChunks
      = s.audioChunks ++ frags.filter (fun c => decide (c.length > 0)) := by
  induction frags with
  | nil => intro s; simp [deliverAll]
  | cons f fs ih =>
    intro s
    show (deliverAll (onDataAvailable s f) fs).audioChunks = _
    rw [ih, onDataAvailable_audioChunks, List.filter_cons]
    by_cases hc : f.length > 0 <;> simp [hc]

theorem deliverAll_persistent (frags : List (List Nat)) : ∀ s : ClientState,
    (deliverAll s frags).isListening = s.isListening
  ∧ (deliverAll s frags).mediaRecorder = s.mediaRecorder
  ∧ (deliverAll s frags).geminiApiToken = s.geminiApiToken := by
  induction frags with
  | nil => intro s; simp [deliverAll]
  | cons f fs ih =>
    intro s
    show (deliverAll (onDataAvailable s f) fs).isListening = _ ∧ _ ∧ _
    have hp := onDataAvailable_persistent s f
    have hi := ih (onDataAvailable s f)
    exact ⟨hi.1.trans hp.1, hi.2.1.trans hp.2.1, hi.2.2.trans hp.2.2.1⟩

theorem toggle_start (s : ClientState) (sid : Nat) (h : s.isListening = false) :
    handleToggleListen s (Except.ok sid)
      = ({ s with
            errorText := "", mediaRecorder := some ⟨RecState.recording, sid⟩,
            audioChunks := [], isListening := true,
            statusText := "Listening... Click to stop." },
         [Effect.acquireDevice sid]) := by
  simp [handleToggleListen, h]

theorem toggle_stop (s : ClientState) (sid : Nat) (mic : Except String Nat)
    (hl : s.isListening = true) (hr : s.mediaRecorder = some ⟨RecState.recording, sid⟩) :
    handleToggleListen s mic
      = ({ s with
            errorText := "", isListening := false,
            mediaRecorder := some ⟨RecState.inactive, sid⟩,
            statusText := "Transcribing audio..." },
         [Effect.sendTranscription s.audioChunks.flatten
            (if s.geminiApiToken != "" then some s.geminiApiToken else none),
          Effect.releaseStream sid]) := by
  simp [handleToggleListen, fireOnStop, assembleArtifact, hl, hr]

/-- Combined start/stop scenario: after a start-action from a
non-listening state, fragment deliveries, and a stop-action, the stop
emits exactly the transcription dispatch (with the concatenation of the
retained fragments) followed by one release of the acquired stream. -/
theorem start_then_stop (s : ClientState) (sid : Nat) (frags : List (List Nat))
    (mic2 : Except String Nat) (h : s.isListening = false) :
    (handleToggleListen (deliverAll (handleToggleListen s (Except.ok sid)).1 frags) mic2).2
      = [Effect.sendTranscription ((frags.filter fun c => decide (c.length > 0)).flatten)
           (if s.geminiApiToken != "" then some s.geminiApiToken else none),
         Effect.releaseStream sid] := by
  rw [toggle_start s sid h]
  have hp := deliverAll_persistent frags
    { s with
        errorText := "", mediaRecorder := some ⟨RecState.recording, sid⟩,
        audioChunks := [], isListening := true,
        statusText := "Listening... Click to stop." }
  have hl : (deliverAll ({ s with
      errorText := "", mediaRecorder := some ⟨RecState.recording, sid⟩,
      audioChunks := [], isListening := true,
      statusText := "Listening... Click to stop." }) frags).isListening = true := hp.1
  have hr : (deliverAll ({ s with
      errorText := "", mediaRecorder := some ⟨RecState.recording, sid⟩,
      audioChunks := [], isListening := true,
      statusText := "Listening... Click to stop." }) frags).mediaRecorder
        = some ⟨RecState.recording, sid⟩ := hp.2.1
  rw [toggle_stop _ sid mic2 hl hr, deliverAll_audioChunks, hp.2.2]
  simp

/-! ## Claims about the client -/

/-- C4: invoking the toggle action while the session is capturing
(`isListening = true`) never performs a start: no device acquisition
effect is emitted and no new recorder is created (the recorder handle,
identified by its stream, is unchanged), so at most one recording
session is ever active. -/
theorem no_start_while_capturing (s : ClientState) (micResult : Except String Nat)
    (h : s.isListening = true) :
    ((handleToggleListen s micResult).2.all fun e => ! e.isAcquire) = true
  ∧ (handleToggleListen s micResult).1.mediaRecorder.map Recorder.streamId
      = s.mediaRecorder.map Recorder.streamId := by
  unfold handleToggleListen
  simp only [h]
  cases hrec : s.mediaRecorder with
  | none => simp [hrec]
  | some r =>
    cases r with
    | mk rs sid =>
      cases rs <;> simp [hrec, fireOnStop, Effect.isAcquire]

/-- A concrete reachable mid-capture state used by the witnesses. -/
def capturingState : ClientState :=
  { clientInit with
      isListening := true
      mediaRecorder := some ⟨RecState.recording, 7⟩
      audioChunks := [[1, 2]]
      statusText := "Listening... Click to stop." }

/-- Witness for C4 at a concrete capturing state. -/
theorem no_start_while_capturing_witness :
    ((handleToggleListen capturingState (Except.ok 9)).2.all fun e => ! e.isAcquire) = true
  ∧ (handleToggleListen capturingState (Except.ok 9)).1.mediaRecorder.map Recorder.streamId
      = capturingState.mediaRecorder.map Recorder.streamId :=
  no_start_while_capturing capturingState (Except.ok 9) rfl

/-- C5: for every start-action followed by a stop-action (with any
fragment deliveries in between, including none), the acquired stream is
released exactly once across the two actions. -/
theorem stream_released_once (s : ClientState) (sid : Nat)
    (frags : List (List Nat)) (mic2 : Except String Nat)
    (h : s.isListening = false) :
    countRelease sid ((handleToggleListen s (Except.ok sid)).2
        ++ (handleToggleListen (deliverAll (handleToggleListen s (Except.ok sid)).1 frags) mic2).2)
      = 1 := by
  rw [start_then_stop s sid frags mic2 h, toggle_start s sid h]
  simp [countRelease, Effect.isReleaseOf, List.countP_append, List.countP_cons]

/-- Witness for C5: a session with zero fragments still releases the
stream exactly once. -/
theorem stream_released_once_witness :
    countRelease 7 ((handleToggleListen clientInit (Except.ok 7)).2
        ++ (handleToggleListen (deliverAll (handleToggleListen clientInit (Except.ok 7)).1 [])
              (Except.error "")).2)
      = 1 :=
  stream_released_once clientInit 7 [] (Except.error "") rfl

/-- C6: on a successful transcription result, an empty text leaves the
state unchanged except for the completion status (no entry, no error);
a non-empty text appends exactly one entry, newest last, carrying the
received text and the receipt timestamp, and sets the completion
status. -/
theorem appendResult_spec (s : ClientState) (timestamp tx : String)
    (e d : Option String) (log : List (String × String))
    (hrender : s.transcribedText = renderLog log) :
    (tx = "" →
        finishSend s timestamp (FetchOutcome.response true ⟨JsonValue.str tx, e, d⟩)
          = { s with statusText := completeStatus })
  ∧ (tx ≠ "" →
        (finishSend s timestamp (FetchOutcome.response true ⟨JsonValue.str tx, e, d⟩)).transcribedText
            = renderLog (log ++ [(timestamp, tx)])
      ∧ (log ++ [(timestamp, tx)]).length = log.length + 1
      ∧ (finishSend s timestamp (FetchOutcome.response true ⟨JsonValue.str tx, e, d⟩)).statusText
            = completeStatus
      ∧ (finishSend s timestamp (FetchOutcome.response true ⟨JsonValue.str tx, e, d⟩)).errorText
            = s.errorText) := by
  constructor
  · intro htx
    subst htx
    simp [finishSend, JsonValue.truthy]
  · intro htx
    rw [renderLog_append]
    simp [finishSend, JsonValue.truthy, htx, JsonValue.toDisplayString, hrender, renderEntry]

/-- Witness for C6: a non-empty result appends one entry; an empty
result only updates the status. -/
theorem appendResult_spec_witness :
    (finishSend clientInit "12:00:00"
        (FetchOutcome.response true ⟨JsonValue.str "hello", none, none⟩)).transcribedText
      = "[12:00:00] hello"
  ∧ finishSend clientInit "12:00:00"
        (FetchOutcome.response true ⟨JsonValue.str "", none, none⟩)
      = { clientInit with statusText := completeStatus } := by
  refine ⟨?_, ?_⟩
  · exact ((appendResult_spec clientInit "12:00:00" "hello" none none [] rfl).2 (by decide)).1
  · exact (appendResult_spec clientInit "12:00:00" "" none none [] rfl).1 rfl

/-- C7: zero-length fragments are never buffered, and the artifact
dispatched on stop is the concatenation of the retained fragments in
arrival order. -/
theorem fragments_filtered_concat (s : ClientState) (sid : Nat)
    (frags : List (List Nat)) (mic2 : Except String Nat)
    (h : s.isListening = false) :
    (deliverAll (handleToggleListen s (Except.ok sid)).1 frags).audioChunks
        = frags.filter (fun c => decide (c.length > 0))
  ∧ (handleToggleListen (deliverAll (handleToggleListen s (Except.ok sid)).1 frags) mic2).2
        = [Effect.sendTranscription ((frags.filter fun c => decide (c.length > 0)).flatten)
             (if s.geminiApiToken != "" then some s.geminiApiToken else none),
           Effect.releaseStream sid] := by
  constructor
  · rw [toggle_start s sid h, deliverAll_audioChunks]
    simp
  · exact start_then_stop s sid frags mic2 h

/-- Witness for C7: two non-empty fragments with an interleaved empty
one yield the concatenation of the two, in order. -/
theorem fragments_filtered_concat_witness :
    (deliverAll (handleToggleListen clientInit (Except.ok 5)).1 [[1], [], [2, 3]]).audioChunks
        = [[1], [2, 3]]
  ∧ (handleToggleListen (deliverAll (handleToggleListen clientInit (Except.ok 5)).1 [[1], [], [2, 3]])
        (Except.error "x")).2
        = [Effect.sendTranscription [1, 2, 3] none, Effect.releaseStream 5] :=
  fragments_filtered_concat clientInit 5 [[1], [], [2, 3]] (Except.error "x") rfl

/-- C8: a failed transcription call (non-ok response, or a fetch/parse
rejection) leaves the transcript untouched and shows a non-empty error
message. -/
theorem failure_leaves_transcript (s : ClientState) (timestamp msg : String)
    (body : ClientRespBody) :
    ((finishSend s timestamp (FetchOutcome.response false body)).transcribedText
          = s.transcribedText
      ∧ (finishSend s timestamp (FetchOutcome.response false body)).errorText
          = "Error: " ++ jsOrStr body.error (jsOrStr body.details "Transcription failed")
      ∧ (finishSend s timestamp (FetchOutcome.response false body)).errorText ≠ "")
  ∧ ((finishSend s timestamp (FetchOutcome.failed msg)).transcribedText = s.transcribedText
      ∧ (finishSend s timestamp (FetchOutcome.failed msg)).errorText = "Error: " ++ msg
      ∧ (finishSend s timestamp (FetchOutcome.failed msg)).errorText ≠ "") :=
  ⟨⟨rfl, rfl, append_error_ne_empty _⟩, ⟨rfl, rfl, append_error_ne_empty _⟩⟩

/-- C9: a microphone permission denial or device error on start leaves
the controller idle, surfaces an error message of the form
`Error accessing microphone: <detail>`, and emits no effect (in
particular no transcription call and no acquisition). -/
theorem mic_error_stays_idle (s : ClientState) (msg : String)
    (h : s.isListening = false) :
    handleToggleListen s (Except.error msg)
      = ({ s with
            errorText := "Error accessing microphone: " ++ msg
              ++ ". Please ensure permission is granted.",
            statusText := "Could not start listening. Check microphone permissions.",
            isListening := false }, []) := by
  simp [handleToggleListen, h]

/-- Witness for C9 at the initial state with a concrete denial. -/
theorem mic_error_stays_idle_witness :
    handleToggleListen clientInit (Except.error "Permission denied")
      = ({ clientInit with
            errorText := "Error accessing microphone: Permission denied. Please ensure permission is granted.",
            statusText := "Could not start listening. Check microphone permissions.",
            isListening := false }, []) := by
  have h := mic_error_stays_idle clientInit "Permission denied" rfl
  exact h

/-- C10 (amended): a 200 response whose `transcription` field is falsy
(absent, `null`, `false`, `0` or `""`) is coerced to the empty string:
no entry is appended, no error is shown, and the status becomes the
completion message. -/
theorem falsy_transcription_coerced (s : ClientState) (timestamp : String)
    (v : JsonValue) (e d : Option String) (h : v.truthy = false) :
    finishSend s timestamp (FetchOutcome.response true ⟨v, e, d⟩)
      = { s with statusText := completeStatus } := by
  cases v with
  | undef => simp [finishSend, JsonValue.truthy]
  | null => simp [finishSend, JsonValue.truthy]
  | bool b => simp [JsonValue.truthy] at h; subst h; simp [finishSend, JsonValue.truthy]
  | num n => simp [JsonValue.truthy] at h; subst h; simp [finishSend, JsonValue.truthy]
  | str t => simp [JsonValue.truthy] at h; subst h; simp [finishSend, JsonValue.truthy]

/-- Witness for C10 at a `null` transcription field. -/
theorem falsy_transcription_coerced_witness :
    finishSend clientInit "09:00:00" (FetchOutcome.response true ⟨JsonValue.null, none, none⟩)
      = { clientInit with statusText := completeStatus } :=
  falsy_transcription_coerced clientInit "09:00:00" JsonValue.null none none rfl

/-- Counterexample to C10 as stated: the truthy non-string value `1`
is not coerced to the empty string — it is stringified and appended as
a transcript entry. -/
theorem nonstring_transcription_appended :
    (finishSend clientInit "10:00:00"
        (FetchOutcome.response true ⟨JsonValue.num 1, none, none⟩)).transcribedText
      = "[10:00:00] 1"
  ∧ (finishSend clientInit "10:00:00"
        (FetchOutcome.response true ⟨JsonValue.num 1, none, none⟩)).transcribedText
      ≠ clientInit.transcribedText :=
  ⟨rfl, by decide⟩

/-! ## Claims about the server -/

theorem serverFallback_some (st : ServerState) (k m : String)
    (hg : st.genAI = some k) (hm : st.model = some m) :
    serverFallback st = Except.ok (ClientId.server k) := by
  unfold serverFallback
  rw [hg, hm]

theorem serverFallback_none (st : ServerState)
    (h : st.genAI = none ∨ st.model = none) :
    serverFallback st = Except.error (Outcome.json 500
      ⟨none, some "API token is required. Configure it on the server or provide it in the request.", none⟩) := by
  unfold serverFallback
  rcases h with h | h
  · rw [h]
  · cases hg : st.genAI with
    | none => rfl
    | some k => rw [h]

theorem resolveCredential_fresh (st : ServerState) (t : String)
    (mkClient : String → Except String Unit)
    (hnb : nonBlank (some t) = true) (hmk : mkClient t = Except.ok ()) :
    resolveCredential st (some t) mkClient = Except.ok (ClientId.fresh t) := by
  have hb : (t != "" && jsTrim t != "") = true := hnb
  simp only [resolveCredential, hb, if_true, hmk]

theorem resolveCredential_blank (st : ServerState) (tok : Option String)
    (mkClient : String → Except String Unit) (hnb : nonBlank tok = false) :
    resolveCredential st tok mkClient = serverFallback st := by
  cases tok with
  | none => rfl
  | some t =>
    have hb : (t != "" && jsTrim t != "") = false := hnb
    simp only [resolveCredential, hb, Bool.false_eq_true, if_false]

theorem postTranscribe_resolved (st : ServerState) (req : Request)
    (mkClient : String → Except String Unit) (callApi : GenCall → Except String String)
    (cid : ClientId)
    (hres : resolveCredential st req.clientToken mkClient = Except.ok cid) :
    ((postTranscribe st (Except.ok req) mkClient callApi).2.all
        fun call => call.client == cid) = true := by
  simp only [postTranscribe]
  rw [hres]
  cases req.audioFile with
  | none => rfl
  | some bytes =>
    cases hc : callApi (mkGenCall cid bytes) with
    | ok text =>
      simp only [mkGenCall] at hc
      simp [hc, mkGenCall]
    | error e =>
      simp only [mkGenCall] at hc
      simp [hc, mkGenCall]

theorem postTranscribe_resolveError (st : ServerState) (req : Request)
    (mkClient : String → Except String Unit) (callApi : GenCall → Except String String)
    (o : Outcome)
    (hres : resolveCredential st req.clientToken mkClient = Except.error o) :
    postTranscribe st (Except.ok req) mkClient callApi = (o, []) := by
  simp only [postTranscribe]
  rw [hres]

theorem resolveCredential_error_shape (st : ServerState) (tok : Option String)
    (mkClient : String → Except String Unit) (o : Outcome)
    (h : resolveCredential st tok mkClient = Except.error o) :
    ∃ s b, o = Outcome.json s b ∧ (s = 400 ∨ s = 500) ∧ b.error.isSome = true := by
  have hfb : ∀ h2 : serverFallback st = Except.error o,
      ∃ s b, o = Outcome.json s b ∧ (s = 400 ∨ s = 500) ∧ b.error.isSome = true := by
    intro h2
    unfold serverFallback at h2
    cases hg : st.genAI with
    | some k =>
      cases hm : st.model with
      | some m => rw [hg, hm] at h2; exact absurd h2 (by simp)
      | none =>
        rw [hg, hm] at h2
        refine ⟨500, ⟨none, some "API token is required. Configure it on the server or provide it in the request.", none⟩,
          ((Except.error.injEq _ _).mp h2).symm, Or.inr rfl, rfl⟩
    | none =>
      rw [hg] at h2
      cases hm : st.model with
      | some m =>
        rw [hm] at h2
        refine ⟨500, ⟨none, some "API token is required. Configure it on the server or provide it in the request.", none⟩,
          ((Except.error.injEq _ _).mp h2).symm, Or.inr rfl, rfl⟩
      | none =>
        rw [hm] at h2
        refine ⟨500, ⟨none, some "API token is required. Configure it on the server or provide it in the request.", none⟩,
          ((Except.error.injEq _ _).mp h2).symm, Or.inr rfl, rfl⟩
  cases tok with
  | none => exact hfb h
  | some t =>
    simp only [resolveCredential] at h
    by_cases hb : (t != "" && jsTrim t != "") = true
    · rw [if_pos hb] at h
      cases hmk : mkClient t with
      | ok u => rw [hmk] at h; exact absurd h (by simp)
      | error e =>
        rw [hmk] at h
        refine ⟨400, ⟨none, some "Invalid client-provided API token.", some e⟩,
          ((Except.error.injEq _ _).mp h).symm, Or.inl rfl, rfl⟩
    · rw [if_neg hb] at h
      exact hfb h

/-- C1: credential resolution order. (1) A non-blank caller token whose
client construction succeeds makes every external call of the request
use a fresh client scoped to that token, whatever the server default
is. (2) A blank or absent token with an initialized server default
makes every call use the server client. (3) A blank or absent token
with no server default answers status 500 and issues no external
call. -/
theorem credential_resolution_order (st : ServerState) (req : Request)
    (mkClient : String → Except String Unit) (callApi : GenCall → Except String String) :
    (∀ t, req.clientToken = some t → nonBlank (some t) = true → mkClient t = Except.ok () →
        resolveCredential st req.clientToken mkClient = Except.ok (ClientId.fresh t)
      ∧ ((postTranscribe st (Except.ok req) mkClient callApi).2.all
            fun call => call.client == ClientId.fresh t) = true)
  ∧ (∀ k m : String, nonBlank req.clientToken = false →
        st.genAI = some k → st.model = some m →
        resolveCredential st req.clientToken mkClient = Except.ok (ClientId.server k)
      ∧ ((postTranscribe st (Except.ok req) mkClient callApi).2.all
            fun call => call.client == ClientId.server k) = true)
  ∧ (nonBlank req.clientToken = false → (st.genAI = none ∨ st.model = none) →
        (postTranscribe st (Except.ok req) mkClient callApi).1.statusOf = some 500
      ∧ (postTranscribe st (Except.ok req) mkClient callApi).2 = []) := by
  refine ⟨?_, ?_, ?_⟩
  · intro t htok hnb hmk
    rw [htok]
    have hres := resolveCredential_fresh st t mkClient hnb hmk
    refine ⟨hres, ?_⟩
    have := postTranscribe_resolved st req mkClient callApi (ClientId.fresh t)
      (by rw [htok]; exact hres)
    exact this
  · intro k m hnb hg hm
    have hres := (resolveCredential_blank st req.clientToken mkClient hnb).trans
      (serverFallback_some st k m hg hm)
    exact ⟨hres, postTranscribe_resolved st req mkClient callApi (ClientId.server k) hres⟩
  · intro hnb hnone
    have hres := (resolveCredential_blank st req.clientToken mkClient hnb).trans
      (serverFallback_none st hnone)
    rw [postTranscribe_resolveError st req mkClient callApi _ hres]
    exact ⟨rfl, rfl⟩

/-- Witness for C1: with both a server default and a caller token
present, the caller token wins and the external call is issued on the
fresh client. -/
theorem credential_resolution_order_witness :
    resolveCredential (initServer (some "server-key")) (some "caller-key") (fun _ => Except.ok ())
        = Except.ok (ClientId.fresh "caller-key")
  ∧ ((postTranscribe (initServer (some "server-key"))
        (Except.ok ⟨some [1, 2, 3], some "caller-key"⟩)
        (fun _ => Except.ok ()) (fun _ => Except.ok "hi")).2.all
        fun call => call.client == ClientId.fresh "caller-key") = true := by
  have h := (credential_resolution_order (initServer (some "server-key"))
      ⟨some [1, 2, 3], some "caller-key"⟩ (fun _ => Except.ok ())
      (fun _ => Except.ok "hi")).1 "caller-key" rfl (by decide) rfl
  exact h

/-- C2 (amended): a request without an `audio_file` field is answered
with status 400, an `error` field, and no external call — provided
credential resolution selected a client; when no credential is
available at all, the 500 configuration error takes precedence. -/
theorem missing_audio_rejected (st : ServerState) (req : Request)
    (mkClient : String → Except String Unit) (callApi : GenCall → Except String String)
    (cid : ClientId) (haudio : req.audioFile = none)
    (hres : resolveCredential st req.clientToken mkClient = Except.ok cid) :
    postTranscribe st (Except.ok req) mkClient callApi
      = (Outcome.json 400 ⟨none, some "No audio file provided.", none⟩, []) := by
  simp only [postTranscribe]
  rw [hres, haudio]

/-- Witness for C2 with the server default credential selected. -/
theorem missing_audio_rejected_witness :
    postTranscribe (initServer (some "srv")) (Except.ok ⟨none, none⟩) (fun _ => Except.ok ())
        (fun _ => Except.ok "hi")
      = (Outcome.json 400 ⟨none, some "No audio file provided.", none⟩, []) :=
  missing_audio_rejected (initServer (some "srv")) ⟨none, none⟩ (fun _ => Except.ok ())
    (fun _ => Except.ok "hi") (ClientId.server "srv") rfl rfl

/-- Counterexample to C2 as stated: a request with no `audio_file` and
no credential anywhere is answered 500 (the configuration error runs
before the audio check), not 400; no external call is made. -/
theorem missing_audio_counterexample :
    (postTranscribe (initServer none) (Except.ok ⟨none, none⟩) (fun _ => Except.ok ())
        (fun _ => Except.ok "hi")).1.statusOf = some 500
  ∧ ¬ (postTranscribe (initServer none) (Except.ok ⟨none, none⟩) (fun _ => Except.ok ())
        (fun _ => Except.ok "hi")).1.statusOf = some 400
  ∧ (postTranscribe (initServer none) (Except.ok ⟨none, none⟩) (fun _ => Except.ok ())
        (fun _ => Except.ok "hi")).2 = [] :=
  ⟨rfl, by decide, rfl⟩

theorem resolveCredential_mkError (st : ServerState) (t e : String)
    (mkClient : String → Except String Unit)
    (hnb : nonBlank (some t) = true) (hmk : mkClient t = Except.error e) :
    resolveCredential st (some t) mkClient
      = Except.error (Outcome.json 400
          ⟨none, some "Invalid client-provided API token.", some e⟩) := by
  have hb : (t != "" && jsTrim t != "") = true := hnb
  simp only [resolveCredential, hb, if_true, hmk]

theorem postTranscribe_noAudio (st : ServerState) (req : Request)
    (mkClient : String → Except String Unit) (callApi : GenCall → Except String String)
    (cid : ClientId)
    (hres : resolveCredential st req.clientToken mkClient = Except.ok cid)
    (haudio : req.audioFile = none) :
    postTranscribe st (Except.ok req) mkClient callApi
      = (Outcome.json 400 ⟨none, some "No audio file provided.", none⟩, []) := by
  simp only [postTranscribe]
  rw [hres, haudio]

theorem postTranscribe_apiOk (st : ServerState) (req : Request)
    (mkClient : String → Except String Unit) (callApi : GenCall → Except String String)
    (cid : ClientId) (bytes : List Nat) (text : String)
    (hres : resolveCredential st req.clientToken mkClient = Except.ok cid)
    (haudio : req.audioFile = some bytes)
    (hcall : callApi (mkGenCall cid bytes) = Except.ok text) :
    postTranscribe st (Except.ok req) mkClient callApi
      = (Outcome.json 200 ⟨some text, none, none⟩, [mkGenCall cid bytes]) := by
  simp only [postTranscribe]
  rw [hres, haudio]
  simp [hcall]

theorem postTranscribe_apiError (st : ServerState) (req : Request)
    (mkClient : String → Except String Unit) (callApi : GenCall → Except String String)
    (cid : ClientId) (bytes : List Nat) (e : String)
    (hres : resolveCredential st req.clientToken mkClient = Except.ok cid)
    (haudio : req.audioFile = some bytes)
    (hcall : callApi (mkGenCall cid bytes) = Except.error e) :
    postTranscribe st (Except.ok req) mkClient callApi
      = (Outcome.json 500 ⟨none, some "Failed to transcribe audio.", some e⟩,
         [mkGenCall cid bytes]) := by
  simp only [postTranscribe]
  rw [hres, haudio]
  simp [hcall]

/-- C3 (amended): once the multipart body has been parsed, no exception
escapes the handler: (1) the outcome is always a JSON response; (2)
every non-200 response has status 400 or 500 and an `error` field; (3)
a 200 response happens only when credential resolution, the audio
check, and the external call all succeeded, and carries the transcribed
text; (4) an exception of the external call yields exactly the 500
response with `error` and `details` from the failure; (5) an exception
of the client construction for a non-blank caller token yields exactly
the 400 response with `error` and `details` from the failure. -/
theorem handler_faults_to_json (st : ServerState) (req : Request)
    (mkClient : String → Except String Unit) (callApi : GenCall → Except String String) :
    (∃ s b, (postTranscribe st (Except.ok req) mkClient callApi).1 = Outcome.json s b)
  ∧ (∀ s b, (postTranscribe st (Except.ok req) mkClient callApi).1 = Outcome.json s b →
        ¬ s = 200 → (s = 400 ∨ s = 500) ∧ b.error.isSome = true)
  ∧ (∀ s b, (postTranscribe st (Except.ok req) mkClient callApi).1 = Outcome.json s b →
        s = 200 → ∃ cid bytes text,
          resolveCredential st req.clientToken mkClient = Except.ok cid
        ∧ req.audioFile = some bytes
        ∧ callApi (mkGenCall cid bytes) = Except.ok text
        ∧ b = ⟨some text, none, none⟩)
  ∧ (∀ cid bytes e, resolveCredential st req.clientToken mkClient = Except.ok cid →
        req.audioFile = some bytes → callApi (mkGenCall cid bytes) = Except.error e →
        (postTranscribe st (Except.ok req) mkClient callApi).1
          = Outcome.json 500 ⟨none, some "Failed to transcribe audio.", some e⟩)
  ∧ (∀ t e, req.clientToken = some t → nonBlank (some t) = true →
        mkClient t = Except.error e →
        (postTranscribe st (Except.ok req) mkClient callApi).1
          = Outcome.json 400 ⟨none, some "Invalid client-provided API token.", some e⟩) := by
  refine ⟨?_, ?_, ?_, ?_, ?_⟩
  · cases hres : resolveCredential st req.clientToken mkClient with
    | error o =>
      obtain ⟨s, b, rfl, hs, hb⟩ :=
        resolveCredential_error_shape st req.clientToken mkClient o hres
      rw [postTranscribe_resolveError st req mkClient callApi _ hres]
      exact ⟨s, b, rfl⟩
    | ok cid =>
      cases haudio : req.audioFile with
      | none =>
        rw [postTranscribe_noAudio st req mkClient callApi cid hres haudio]
        exact ⟨400, _, rfl⟩
      | some bytes =>
        cases hcall : callApi (mkGenCall cid bytes) with
        | ok text =>
          rw [postTranscribe_apiOk st req mkClient callApi cid bytes text hres haudio hcall]
          exact ⟨200, _, rfl⟩
        | error e =>
          rw [postTranscribe_apiError st req mkClient callApi cid bytes e hres haudio hcall]
          exact ⟨500, _, rfl⟩
  · intro s b hout hne
    cases hres : resolveCredential st req.clientToken mkClient with
    | error o =>
      obtain ⟨s2, b2, rfl, hs2, hb2⟩ :=
        resolveCredential_error_shape st req.clientToken mkClient o hres
      rw [postTranscribe_resolveError st req mkClient callApi _ hres] at hout
      injection hout with h1 h2
      subst h1
      subst h2
      exact ⟨hs2, hb2⟩
    | ok cid =>
      cases haudio : req.audioFile with
      | none =>
        rw [postTranscribe_noAudio st req mkClient callApi cid hres haudio] at hout
        injection hout with h1 h2
        subst h1
        subst h2
        exact ⟨Or.inl rfl, rfl⟩
      | some bytes =>
        cases hcall : callApi (mkGenCall cid bytes) with
        | ok text =>
          rw [postTranscribe_apiOk st req mkClient callApi cid bytes text hres haudio hcall]
            at hout
          injection hout with h1 h2
          exact absurd h1.symm hne
        | error e =>
          rw [postTranscribe_apiError st req mkClient callApi cid bytes e hres haudio hcall]
            at hout
          injection hout with h1 h2
          subst h1
          subst h2
          exact ⟨Or.inr rfl, rfl⟩
  · intro s b hout h200
    cases hres : resolveCredential st req.clientToken mkClient with
    | error o =>
      obtain ⟨s2, b2, rfl, hs2, hb2⟩ :=
        resolveCredential_error_shape st req.clientToken mkClient o hres
      rw [postTranscribe_resolveError st req mkClient callApi _ hres] at hout
      injection hout with h1 h2
      subst h1
      subst h200
      rcases hs2 with h | h <;> exact absurd h (by decide)
    | ok cid =>
      cases haudio : req.audioFile with
      | none =>
        rw [postTranscribe_noAudio st req mkClient callApi cid hres haudio] at hout
        injection hout with h1 h2
        rw [h200] at h1
        exact absurd h1 (by decide)
      | some bytes =>
        cases hcall : callApi (mkGenCall cid bytes) with
        | ok text =>
          rw [postTranscribe_apiOk st req mkClient callApi cid bytes text hres haudio hcall]
            at hout
          injection hout with h1 h2
          exact ⟨cid, bytes, text, rfl, rfl, hcall, h2.symm⟩
        | error e =>
          rw [postTranscribe_apiError st req mkClient callApi cid bytes e hres haudio hcall]
            at hout
          injection hout with h1 h2
          rw [h200] at h1
          exact absurd h1 (by decide)
  · intro cid bytes e hres haudio hcall
    rw [postTranscribe_apiError st req mkClient callApi cid bytes e hres haudio hcall]
  · intro t e htok hnb hmk
    have hres : resolveCredential st req.clientToken mkClient
        = Except.error (Outcome.json 400
            ⟨none, some "Invalid client-provided API token.", some e⟩) := by
      rw [htok]
      exact resolveCredential_mkError st t e mkClient hnb hmk
    rw [postTranscribe_resolveError st req mkClient callApi _ hres]

/-- Witness for C3: a failing external call at a concrete request is
answered with exactly the 500 response carrying the failure detail. -/
theorem handler_faults_to_json_witness :
    (postTranscribe (initServer (some "srv")) (Except.ok ⟨some [1, 2], none⟩)
        (fun _ => Except.ok ()) (fun _ => Except.error "upstream failure")).1
      = Outcome.json 500 ⟨none, some "Failed to transcribe audio.", some "upstream failure"⟩ :=
  (handler_faults_to_json (initServer (some "srv")) ⟨some [1, 2], none⟩
      (fun _ => Except.ok ()) (fun _ => Except.error "upstream failure")).2.2.2.1
    (ClientId.server "srv") [1, 2] "upstream failure" rfl rfl rfl

/-- Counterexample to C3 as stated: an exception from parsing the
multipart body (`await req.formData()` sits before the try/catch)
propagates out of the handler — the outcome is a thrown fault, not a
JSON response. -/
theorem unparsed_body_fault :
    postTranscribe (initServer (some "srv")) (Except.error "malformed multipart body")
        (fun _ => Except.ok ()) (fun _ => Except.ok "hi")
      = (Outcome.thrown "malformed multipart body", [])
  ∧ (Outcome.thrown "malformed multipart body").statusOf = none :=
  ⟨rfl, rfl⟩

end GeminiVoice
